import Mathlib

/-!
# Verification of `cover_letter_maker_cli`'s template module

Shallow embedding of `src/template.py` (class `CoverLetterGenerator` and the
`CoverLetterData` model) in Lean 4, together with proofs of the specification
claims about LaTeX escaping, template rendering, PDF compilation and the
`create` entry point.

Modelling conventions:
* Python `str` values are modelled as `String` / `List Char`.
* `str.replace(old, new)` for a single-character `old` is `replaceChar`.
* The external world of `compile_to_pdf_pdflatex` (the two `subprocess.run`
  invocations of `pdflatex` and the filesystem check `pdf_path.exists()`) is
  modelled by explicit parameters: the outcome of each invocation
  (`RunOutcome`: either completion with a return code, or a raised exception)
  and a boolean saying whether the PDF artifact exists after the first run.
* `Path` values are modelled as the strings Python would print for them;
  `path.resolve()` is modelled as the identity (path normalisation depends
  only on the environment, not on the code under verification).
-/

/-- `lbraceChar` is the character `{` (written via its code point to keep the
source free of literal braces). -/
def lbraceChar : Char := Char.ofNat 123

/-- `rbraceChar` is the character `}`. -/
def rbraceChar : Char := Char.ofNat 125

/-- Python's `text.replace(c, rep)` for a single-character pattern `c`:
every occurrence of `c` in the list is replaced by `rep`, in one left-to-right
pass. -/
def replaceChar (c : Char) (rep : List Char) : List Char → List Char
  | [] => []
  | x :: xs => (if x = c then rep else [x]) ++ replaceChar c rep xs

/-- `_escape_latex_safe` from `src/template.py` (lines 180-195): the eight
replacements of the `replacements` dict applied in insertion order
`&`, `$`, `#`, `_`, `{`, `}`, `~`, `^` (each `text = text.replace(...)`).
`%` and backslash are *not* replaced. -/
def escape_latex_safe (text : List Char) : List Char :=
  replaceChar '^' ("\\textasciicircum\x7b\x7d".toList)
    (replaceChar '~' ("\\textasciitilde\x7b\x7d".toList)
      (replaceChar rbraceChar ('\\' :: [rbraceChar])
        (replaceChar lbraceChar ('\\' :: [lbraceChar])
          (replaceChar '_' ('\\' :: ['_'])
            (replaceChar '#' ('\\' :: ['#'])
              (replaceChar '$' ('\\' :: ['$'])
                (replaceChar '&' ('\\' :: ['&']) text)))))))

/-- The unconditional second pass of `generate_latex` (line 225):
`temp_value.replace('%', '%%')`. -/
def doublePercent (text : List Char) : List Char :=
  replaceChar '%' ['%', '%'] text

/-- String-level wrapper for `_escape_latex_safe`. -/
def escape_latex_safeS (s : String) : String :=
  ⟨escape_latex_safe s.toList⟩

/-- The per-field body of the loop in `generate_latex` (lines 215-225): the
value is escaped when the key is not in `safe_keys`, and then `%` is doubled
unconditionally. (`safe` is `key ∈ safe_keys`.) -/
def processValue (safe : Bool) (v : List Char) : List Char :=
  doublePercent (if safe then v else escape_latex_safe v)

/-- String-level wrapper for the per-field processing. -/
def processValueS (safe : Bool) (v : String) : String :=
  ⟨processValue safe v.toList⟩

/-- `ContactInfo` (pydantic model, `src/template.py` lines 9-17). -/
structure ContactInfo where
  name : String
  email : String
  phone : String
  address : String
  linkedin : String := ""
  github : String := ""
  role : String := ""

/-- `CompanyInfo` (lines 20-26). -/
structure CompanyInfo where
  company : String
  position : String
  recipient : String
  source : String := ""
  company_news : String := ""

/-- `CoverLetterContent` (lines 29-36). -/
structure CoverLetterContent where
  opening_salutation : String
  opening_paragraph : String
  second_paragraph : String
  closing_paragraph : String
  closing_salutation : String
  signoff_paragraph : String

/-- `CoverLetterData` (lines 39-51). -/
structure CoverLetterData where
  contact : ContactInfo
  company : CompanyInfo
  content : CoverLetterContent

/-- `CoverLetterData.to_dict` (lines 45-51): the merge of the three
`model_dump()` dicts, in pydantic field order; the three models have pairwise
disjoint field names, so the merge keeps every entry.  Every value is a `str`,
so the `isinstance(value, str)` guard of `generate_latex` is always true. -/
def to_dict (l : CoverLetterData) : List (String × String) :=
  [ ("name", l.contact.name)
  , ("email", l.contact.email)
  , ("phone", l.contact.phone)
  , ("address", l.contact.address)
  , ("linkedin", l.contact.linkedin)
  , ("github", l.contact.github)
  , ("role", l.contact.role)
  , ("company", l.company.company)
  , ("position", l.company.position)
  , ("recipient", l.company.recipient)
  , ("source", l.company.source)
  , ("company_news", l.company.company_news)
  , ("opening_salutation", l.content.opening_salutation)
  , ("opening_paragraph", l.content.opening_paragraph)
  , ("second_paragraph", l.content.second_paragraph)
  , ("closing_paragraph", l.content.closing_paragraph)
  , ("closing_salutation", l.content.closing_salutation)
  , ("signoff_paragraph", l.content.signoff_paragraph) ]

/-- `safe_keys` built in `generate_latex` (lines 209-212): the keys of
`content.model_dump()` plus `github`, `linkedin` and `email`.  Python builds a
set; membership is all that is ever used, so a list with `contains` models
it. -/
def safe_keys : List String :=
  [ "opening_salutation", "opening_paragraph", "second_paragraph"
  , "closing_paragraph", "closing_salutation", "signoff_paragraph"
  , "github", "linkedin", "email" ]

/-- `processed_data` built by the loop in `generate_latex` (lines 214-225). -/
def processedData (l : CoverLetterData) : List (String × String) :=
  (to_dict l).map (fun kv => (kv.1, processValueS (safe_keys.contains kv.1) kv.2))

/-- Dict lookup used by Python's `%` formatting (`template % processed_data`).
All keys that occur in the template are present in `to_dict`, so the `none`
fallback (Python would raise `KeyError`) is never taken on real input. -/
def lookupKey (d : List (String × String)) (k : String) : String :=
  match d.find? (fun kv => kv.1 = k) with
  | some kv => kv.2
  | none => ""

/-- Scanner state of Python `%`-formatting: `norm` = copying characters,
`pct` = just saw `%`, `key acc` = inside `%(...)`, accumulating the key in
reverse. -/
inductive FmtMode where
  | norm : FmtMode
  | pct : FmtMode
  | key (acc : List Char) : FmtMode

/-- Python `%`-formatting with a dict on the right, restricted to the
conversions that occur in `LATEX_TEMPLATE`: `%%` yields a literal `%` and
`%(key)s` substitutes `d[key]`.  (On a malformed format string Python raises;
the template is well formed, so those branches just drop the spec.) -/
def pyFormatAux (d : List (String × String)) : FmtMode → List Char → List Char
  | _, [] => []
  | .norm, '%' :: rest => pyFormatAux d .pct rest
  | .norm, c :: rest => c :: pyFormatAux d .norm rest
  | .pct, '%' :: rest => '%' :: pyFormatAux d .norm rest
  | .pct, '(' :: rest => pyFormatAux d (.key []) rest
  | .pct, _ :: rest => pyFormatAux d .norm rest
  | .key acc, ')' :: 's' :: rest =>
      (lookupKey d ⟨acc.reverse⟩).toList ++ pyFormatAux d .norm rest
  | .key acc, ')' :: rest => pyFormatAux d .norm rest
  | .key acc, c :: rest => pyFormatAux d (.key (c :: acc)) rest

/-- `template % d` for the subset of Python `%`-formatting the template
uses. -/
def pyFormat (d : List (String × String)) (template : List Char) : List Char :=
  pyFormatAux d .norm template

/-- `CoverLetterGenerator.LATEX_TEMPLATE` (lines 77-173), the Python raw
string transcribed verbatim (braces appear as `\x7b`/`\x7d` escapes). -/
def LATEX_TEMPLATE : String :=
  "\n\\documentclass[10pt,letter]\x7bletter\x7d\n\\usepackage[utf8]\x7binputenc\x7d\n\n%%================================\n%% FROM TLCcoverletter.sty\n%%================================\n\\usepackage[T1]\x7bfontenc\x7d\n\\usepackage[default,semibold]\x7bsourcesanspro\x7d\n\\usepackage[12pt]\x7bmoresize\x7d\n\\usepackage\x7banyfontsize\x7d\n\\usepackage\x7bcsquotes\x7d\n\\usepackage[margin=.5in]\x7bgeometry\x7d\n\\usepackage\x7bxcolor\x7d\n\\definecolor\x7bhighlight\x7d\x7bRGB\x7d\x7b61, 90, 128\x7d\n\\usepackage\x7bhyperref\x7d\n\\hypersetup\x7bcolorlinks=true,urlcolor=highlight\x7d\n\\newcommand\x7b\\bold\x7d[1]\x7b \x7b\\bfseries #1\x7d\x7d\n\\pagenumbering\x7bgobble\x7d\n\\usepackage\x7bstandalone\x7d\n\\usepackage\x7bimport\x7d\n\\usepackage[english]\x7bbabel\x7d\n\\usepackage\x7bblindtext\x7d\n\\usepackage\x7bfancyhdr\x7d\n\n%%====================\n%% CONTACT INFORMATION (used by header)\n%%====================\n\\def\\name\x7b%(name)s\x7d\n\\signature\x7b\\name\x7d\n\\address\x7b%(address)s \\\\ %(phone)s \\\\ \\detokenize\x7b%(email)s\x7d\x7d\n\\def\\phone\x7b%(phone)s\x7d\n\\def\\email\x7b%(email)s\x7d\n\\def\\LinkedIn\x7b%(linkedin)s\x7d\n\\def\\github\x7b%(github)s\x7d\n\\def\\role\x7b%(role)s\x7d\n\n%%====================\n%% Company Info\n%%====================\n\\def\\hm\x7b\x7d\n\\def\\position\x7b%(position)s\x7d\n\\def\\company\x7b%(company)s\x7d\n\\def\\source\x7b%(source)s\x7d\n\\def\\companynews\x7b%(company_news)s\x7d\n\n%%==================\n%% Header file (_header)\n%%==================\n\\fancypagestyle\x7bplain\x7d\x7b%%\n\\fancyhf\x7b\x7d\n\\lhead\x7b\\phone \\\\\n    \\href\x7bmailto:\\email\x7d\x7b\\email\x7d\x7d\n\\chead\x7b%%\n    \\centering \x7b\\Large \\bold\\name\x7d \\\\\n    \x7b\\color\x7bhighlight\x7d \\large\x7b\\role\x7d\x7d\x7d\n\\rhead\x7b\n    %%Portfolio: \\href\x7bhttps://yassinekader.dev\x7d\x7byassinekader.dev\x7d\\\\\n    \\href\x7bhttps://github.com/\\github\x7d\x7bgithub.com/\\github\x7d \\\\\n    \\href\x7bhttps://www.linkedin.com/in/\\LinkedIn\x7d\x7blinkedin.com/in/\\LinkedIn\x7d\x7d\n\\renewcommand\x7b\\headrulewidth\x7d\x7b2pt\x7d%%\n\\renewcommand\x7b\\headrule\x7d\x7b\\hbox to\\headwidth\x7b%%\n  \\color\x7bhighlight\x7d\\leaders\\hrule height \\headrulewidth\\hfill\x7d\x7d\n\x7d\n\\pagestyle\x7bplain\x7d\n\n\\setlength\x7b\\headheight\x7d\x7b90pt\x7d\n\\setlength\x7b\\headsep\x7d\x7b0pt\x7d\n\n\\makeatletter\n\\let\\ps@empty\\ps@plain\n\\let\\ps@firstpage\\ps@plain\n\\makeatother\n\n%%==================\n%% Document begins\n%%==================\n\\begin\x7bdocument\x7d\n\\begin\x7bletter\x7d\x7b%(recipient)s\x7d\n\n\\opening\x7b%(opening_salutation)s\x7d\n\n\\setlength\\parindent\x7b.5in\x7d\n\n%(opening_paragraph)s\n\n%(second_paragraph)s\n\n%(closing_paragraph)s\n\n%(signoff_paragraph)s\n\n\\closing\x7b%(closing_salutation)s\x7d\n\n\\end\x7bletter\x7d\n\\end\x7bdocument\x7d\n"

/-- `generate_latex` (lines 197-227): escape/percent-process every field of
`to_dict` and substitute into the template with Python `%`-formatting. -/
def generate_latex (l : CoverLetterData) : String :=
  ⟨pyFormat (processedData l) LATEX_TEMPLATE.toList⟩

/-- `self.output_dir / (filename ++ ".tex")` as produced by `save_latex`
(line 231); `output_dir` is the constant `Path("cover_letters")`
(line 177). -/
def texPath (filename : String) : String :=
  "cover_letters/" ++ filename ++ ".tex"

/-- `self.output_dir / (latex_file.stem ++ ".pdf")` (line 264). -/
def pdfPath (stem : String) : String :=
  "cover_letters/" ++ stem ++ ".pdf"

/-- The exceptions `compile_to_pdf_pdflatex` handles (lines 280-291):
`FileNotFoundError`, `subprocess.TimeoutExpired`, and the catch-all
`Exception`. -/
inductive PyExc where
  | fileNotFound : PyExc
  | timeoutExpired : PyExc
  | other : PyExc

/-- Outcome of one `subprocess.run` invocation of `pdflatex`: it either
completes with a return code or raises an exception (timeout, missing
executable, ...). -/
inductive RunOutcome where
  | completed (rc : Int) : RunOutcome
  | raises (e : PyExc) : RunOutcome

/-- One `subprocess.run([...pdflatex...])` call as an `Except` computation. -/
def runPdflatex (o : RunOutcome) : Except PyExc Int :=
  match o with
  | .completed rc => .ok rc
  | .raises e => .error e

/-- The argv of each `subprocess.run` call in `compile_to_pdf_pdflatex`
(lines 250-256 and 268-271; both calls pass exactly this list). -/
def pdflatexArgs (latexFile : String) : List String :=
  ["pdflatex", "-interaction=nonstopmode", "-output-directory", "cover_letters", latexFile]

/-- The `try:` block of `compile_to_pdf_pdflatex` (lines 247-278): run
`pdflatex`; on return code 0 with the PDF present, run it a second time
(result unused) and return the PDF path, else return `None`.  An exception
raised by either `subprocess.run` (including the second one) propagates out
of the block.  `latex_file` is modelled by its stem: `str(latex_file)` is
`texPath stem` and the artifact is `pdfPath stem`. -/
def compileTryBody (run1 : RunOutcome) (pdfExists : Bool) (run2 : RunOutcome)
    (stem : String) : Except PyExc (Option String) :=
  match runPdflatex run1 with
  | .error e => .error e
  | .ok rc =>
    if rc = 0 ∧ pdfExists = true then
      match runPdflatex run2 with
      | .error e => .error e
      | .ok _ => .ok (some (pdfPath stem))
    else
      .ok none

/-- `compile_to_pdf_pdflatex` (lines 237-291): the `try:` block with its three
`except` handlers, each of which returns `None`. -/
def compile_to_pdf_pdflatex (run1 : RunOutcome) (pdfExists : Bool)
    (run2 : RunOutcome) (stem : String) : Option String :=
  match compileTryBody run1 pdfExists run2 stem with
  | .ok r => r
  | .error .fileNotFound => none
  | .error .timeoutExpired => none
  | .error .other => none

/-- The argv lists of the `pdflatex` invocations `compile_to_pdf_pdflatex`
attempts, in order, mirroring its control flow: the first call is always
attempted; the second is attempted exactly when the first completes with
return code 0 and the artifact exists (an invocation that raises was still
attempted). -/
def compileInvocations (run1 : RunOutcome) (pdfExists : Bool)
    (stem : String) : List (List String) :=
  match run1 with
  | .raises _ => [pdflatexArgs (texPath stem)]
  | .completed rc =>
    if rc = 0 ∧ pdfExists = true then
      [pdflatexArgs (texPath stem), pdflatexArgs (texPath stem)]
    else
      [pdflatexArgs (texPath stem)]

/-- The result dict of `create` (lines 306-316): the `latex` key is always
set; the `pdf` key is set only when compilation succeeded. -/
structure CreateResult where
  latex : String
  pdf : Option String
deriving DecidableEq

/-- `create` (lines 293-316): render the letter, save it (modelled by its
path), and, when `export_pdf` is set, attempt compilation; a `None` from
`compile_to_pdf_pdflatex` (Python falsiness of `pdf_path`) leaves the `pdf`
key absent.  `str(pdf_path.resolve())` is modelled as the path itself. -/
def create (cover_letter : CoverLetterData) (filename : String)
    (export_pdf : Bool) (run1 : RunOutcome) (pdfExists : Bool)
    (run2 : RunOutcome) : CreateResult :=
  let latex_content := generate_latex cover_letter
  let latex_path := texPath filename
  let base : CreateResult := { latex := latex_path, pdf := none }
  if export_pdf then
    match compile_to_pdf_pdflatex run1 pdfExists run2 filename with
    | some p => { base with pdf := some p }
    | none => base
  else
    base

/-- The `pdflatex` invocations `create` attempts: none at all unless
`export_pdf` is set. -/
def createInvocations (filename : String) (export_pdf : Bool)
    (run1 : RunOutcome) (pdfExists : Bool) : List (List String) :=
  if export_pdf then compileInvocations run1 pdfExists filename else []

/-! ## Per-character characterisation of the escaping pipeline -/

/-- Specification-side per-character form of `_escape_latex_safe`: what one
character contributes to the escaped text. -/
def escChar8 (c : Char) : List Char :=
  if c = '&' then '\\' :: ['&']
  else if c = '$' then '\\' :: ['$']
  else if c = '#' then '\\' :: ['#']
  else if c = '_' then '\\' :: ['_']
  else if c = lbraceChar then '\\' :: [lbraceChar]
  else if c = rbraceChar then '\\' :: [rbraceChar]
  else if c = '~' then "\\textasciitilde\x7b\x7d".toList
  else if c = '^' then "\\textasciicircum\x7b\x7d".toList
  else [c]

/-- Per-character form of the unconditional `%`-doubling pass. -/
def pctChar (c : Char) : List Char :=
  if c = '%' then ['%', '%'] else [c]

/-- Per-character form of escaping followed by `%`-doubling (the processing
of a field that is not in `safe_keys`). -/
def escPctChar (c : Char) : List Char :=
  if c = '%' then ['%', '%'] else escChar8 c

/-- A concrete letter used to instantiate theorems with hypotheses. -/
def exLetter : CoverLetterData :=
  { contact :=
      { name := "Ada & Co_"
      , email := "ada@example.com"
      , phone := "555-0100"
      , address := "1 Main St"
      , linkedin := "ada"
      , github := "ada"
      , role := "Dev" }
  , company :=
      { company := "ACME"
      , position := "Engineer"
      , recipient := "Hiring Team"
      , source := ""
      , company_news := "" }
  , content :=
      { opening_salutation := "Dear Team,"
      , opening_paragraph := "I am 100% sure."
      , second_paragraph := "Second."
      , closing_paragraph := "Closing."
      , closing_salutation := "Sincerely,"
      , signoff_paragraph := "Ada" } }

theorem replaceChar_append (c : Char) (rep : List Char) (s t : List Char) :
    replaceChar c rep (s ++ t) = replaceChar c rep s ++ replaceChar c rep t := by
  induction s with
  | nil => rfl
  | cons x xs ih => simp [replaceChar, ih]

theorem escape_latex_safe_append (s t : List Char) :
    escape_latex_safe (s ++ t) = escape_latex_safe s ++ escape_latex_safe t := by
  simp [escape_latex_safe, replaceChar_append]

theorem doublePercent_flatMap (s : List Char) :
    doublePercent s = s.flatMap pctChar := by
  induction s with
  | nil => rfl
  | cons x xs ih =>
    simp only [doublePercent, replaceChar, List.flatMap_cons, pctChar] at *
    rw [ih]

theorem escape_latex_safe_single (x : Char) :
    escape_latex_safe [x] = escChar8 x := by
  by_cases h1 : x = '&'
  · subst h1; decide
  by_cases h2 : x = '$'
  · subst h2; decide
  by_cases h3 : x = '#'
  · subst h3; decide
  by_cases h4 : x = '_'
  · subst h4; decide
  by_cases h5 : x = lbraceChar
  · subst h5; decide
  by_cases h6 : x = rbraceChar
  · subst h6; decide
  by_cases h7 : x = '~'
  · subst h7; decide
  by_cases h8 : x = '^'
  · subst h8; decide
  simp [escape_latex_safe, replaceChar, escChar8, h1, h2, h3, h4, h5, h6, h7, h8]

theorem escape_latex_safe_flatMap (s : List Char) :
    escape_latex_safe s = s.flatMap escChar8 := by
  induction s with
  | nil => rfl
  | cons x xs ih =>
    have : escape_latex_safe (x :: xs) = escape_latex_safe [x] ++ escape_latex_safe xs := by
      rw [← escape_latex_safe_append]
      rfl
    rw [this, escape_latex_safe_single, ih, List.flatMap_cons]

theorem doublePercent_escChar8 (x : Char) :
    doublePercent (escChar8 x) = escPctChar x := by
  by_cases h1 : x = '&'
  · subst h1; decide
  by_cases h2 : x = '$'
  · subst h2; decide
  by_cases h3 : x = '#'
  · subst h3; decide
  by_cases h4 : x = '_'
  · subst h4; decide
  by_cases h5 : x = lbraceChar
  · subst h5; decide
  by_cases h6 : x = rbraceChar
  · subst h6; decide
  by_cases h7 : x = '~'
  · subst h7; decide
  by_cases h8 : x = '^'
  · subst h8; decide
  by_cases h9 : x = '%'
  · subst h9; decide
  simp [escChar8, escPctChar, doublePercent, replaceChar, h1, h2, h3, h4, h5, h6, h7, h8, h9]

theorem processValue_false_flatMap (v : List Char) :
    processValue false v = v.flatMap escPctChar := by
  induction v with
  | nil => rfl
  | cons x xs ih =>
    have hsplit : processValue false (x :: xs)
        = doublePercent (escape_latex_safe [x]) ++ processValue false xs := by
      show doublePercent (escape_latex_safe (x :: xs)) = _
      have : (x :: xs) = [x] ++ xs := rfl
      rw [this, escape_latex_safe_append]
      show doublePercent _ = _ ++ doublePercent (escape_latex_safe xs)
      rw [doublePercent_flatMap, List.flatMap_append, ← doublePercent_flatMap,
        ← doublePercent_flatMap]
    rw [hsplit, escape_latex_safe_single, doublePercent_escChar8, ih, List.flatMap_cons]

theorem processValue_true_flatMap (v : List Char) :
    processValue true v = v.flatMap pctChar := by
  show doublePercent v = _
  exact doublePercent_flatMap v

/-! ## Claims about escaping and rendering -/

/-- C4: In the source text produced by `generate_latex`, every field whose
name is not in `safe_keys` has every occurrence of `&`, `$`, `#`, `_`, `{`,
`}`, `~`, `^` in its value appear only in its escaped markup form (the
substituted text is exactly the character-wise image of the value under
`escPctChar`, which maps each of the eight characters to its escape sequence
and every other character except `%` to itself), while every field whose name
is in `safe_keys` is substituted with no character-escaping applied (only the
unconditional `%`-doubling). -/
theorem c4_field_escaping (l : CoverLetterData) (k v : String)
    (h : (k, v) ∈ to_dict l) :
    (k, processValueS (safe_keys.contains k) v) ∈ processedData l ∧
    generate_latex l = ⟨pyFormat (processedData l) LATEX_TEMPLATE.toList⟩ ∧
    (safe_keys.contains k = false →
      processValueS false v = ⟨v.toList.flatMap escPctChar⟩ ∧
      escPctChar '&' = "\\&".toList ∧
      escPctChar '$' = "\\$".toList ∧
      escPctChar '#' = "\\#".toList ∧
      escPctChar '_' = "\\_".toList ∧
      escPctChar lbraceChar = "\\\x7b".toList ∧
      escPctChar rbraceChar = "\\\x7d".toList ∧
      escPctChar '~' = "\\textasciitilde\x7b\x7d".toList ∧
      escPctChar '^' = "\\textasciicircum\x7b\x7d".toList ∧
      (∀ c : Char,
        ¬ (c = '&' ∨ c = '$' ∨ c = '#' ∨ c = '_' ∨ c = lbraceChar ∨
           c = rbraceChar ∨ c = '~' ∨ c = '^' ∨ c = '%') →
        escPctChar c = [c])) ∧
    (safe_keys.contains k = true →
      processValueS true v = ⟨v.toList.flatMap pctChar⟩ ∧
      (∀ c : Char, c ≠ '%' → pctChar c = [c])) := by
  refine ⟨List.mem_map_of_mem _ h, rfl, ?_, ?_⟩
  · intro _
    refine ⟨?_, by decide, by decide, by decide, by decide, by decide, by decide,
      by decide, by decide, ?_⟩
    · simp [processValueS, processValue_false_flatMap]
    · intro c hc
      push_neg at hc
      obtain ⟨n1, n2, n3, n4, n5, n6, n7, n8, n9⟩ := hc
      simp [escPctChar, escChar8, n1, n2, n3, n4, n5, n6, n7, n8, n9]
  · intro _
    refine ⟨?_, ?_⟩
    · simp [processValueS, processValue_true_flatMap]
    · intro c hc
      simp [pctChar, hc]

/-- Witness for C4: the non-safe field `name` of the concrete letter is in the
dict and its processed form is in `processed_data`. -/
theorem c4_field_escaping_witness :
    ("name", "Ada & Co_") ∈ to_dict exLetter ∧
    ("name", processValueS (safe_keys.contains "name") "Ada & Co_") ∈ processedData exLetter :=
  ⟨by decide, (c4_field_escaping exLetter "name" "Ada & Co_" (by decide)).1⟩

/-- C5: For every field, regardless of `safe_keys` membership, every literal
`%` in the field's value appears doubled in the substituted text: the
processed value is the character-wise image of the value under a map that
sends `%` to `%%`, and no character other than `%` ever contributes a `%`. -/
theorem c5_percent_doubled (l : CoverLetterData) (k v : String)
    (h : (k, v) ∈ to_dict l) :
    (k, processValueS (safe_keys.contains k) v) ∈ processedData l ∧
    processValueS (safe_keys.contains k) v =
      ⟨v.toList.flatMap
        (fun c => if safe_keys.contains k then pctChar c else escPctChar c)⟩ ∧
    pctChar '%' = ['%', '%'] ∧
    escPctChar '%' = ['%', '%'] ∧
    (∀ c : Char, c ≠ '%' → '%' ∉ pctChar c ∧ '%' ∉ escPctChar c) := by
  refine ⟨List.mem_map_of_mem _ h, ?_, by decide, by decide, ?_⟩
  · cases hk : safe_keys.contains k with
    | true => simp [processValueS, processValue_true_flatMap]
    | false => simp [processValueS, processValue_false_flatMap]
  · intro c hc
    constructor
    · simp [pctChar, hc]
      intro he
      exact absurd he.symm hc
    · by_cases h1 : c = '&'
      · subst h1; decide
      by_cases h2 : c = '$'
      · subst h2; decide
      by_cases h3 : c = '#'
      · subst h3; decide
      by_cases h4 : c = '_'
      · subst h4; decide
      by_cases h5 : c = lbraceChar
      · subst h5; decide
      by_cases h6 : c = rbraceChar
      · subst h6; decide
      by_cases h7 : c = '~'
      · subst h7; decide
      by_cases h8 : c = '^'
      · subst h8; decide
      simp [escPctChar, escChar8, hc, h1, h2, h3, h4, h5, h6, h7, h8]
      intro he
      exact absurd he.symm hc

/-- Witness for C5: the safe field `opening_paragraph` of the concrete letter,
whose value contains a literal `%`. -/
theorem c5_percent_doubled_witness :
    ("opening_paragraph", "I am 100% sure.") ∈ to_dict exLetter ∧
    ("opening_paragraph",
      processValueS (safe_keys.contains "opening_paragraph") "I am 100% sure.")
      ∈ processedData exLetter :=
  ⟨by decide,
   (c5_percent_doubled exLetter "opening_paragraph" "I am 100% sure." (by decide)).1⟩

/-- C8: `_escape_latex_safe` is not idempotent: applying it twice to a text
containing an ampersand differs from applying it once. -/
theorem c8_not_idempotent :
    ∃ t : String, escape_latex_safeS (escape_latex_safeS t) ≠ escape_latex_safeS t :=
  ⟨"&", by decide⟩

/-- C10: `_escape_latex_safe` leaves backslashes unchanged: escaping is a
single character-wise pass whose map sends `\` to itself, so a literal
backslash in a non-safe field's value passes through the full per-field
processing verbatim and the backslashes introduced by the replacements are
never re-escaped. -/
theorem c10_backslash_preserved (s : String) :
    escape_latex_safeS s = ⟨s.toList.flatMap escChar8⟩ ∧
    escChar8 '\\' = ['\\'] ∧
    processValueS false s = ⟨s.toList.flatMap escPctChar⟩ ∧
    escPctChar '\\' = ['\\'] :=
  ⟨by simp [escape_latex_safeS, escape_latex_safe_flatMap], by decide,
   by simp [processValueS, processValue_false_flatMap], by decide⟩

/-- C7: `generate_latex` is a pure, deterministic function of its input: two
`CoverLetterData` values that agree field for field render to byte-identical
source text. -/
theorem c7_render_deterministic (a b : CoverLetterData)
    (h : a.contact.name = b.contact.name ∧
         a.contact.email = b.contact.email ∧
         a.contact.phone = b.contact.phone ∧
         a.contact.address = b.contact.address ∧
         a.contact.linkedin = b.contact.linkedin ∧
         a.contact.github = b.contact.github ∧
         a.contact.role = b.contact.role ∧
         a.company.company = b.company.company ∧
         a.company.position = b.company.position ∧
         a.company.recipient = b.company.recipient ∧
         a.company.source = b.company.source ∧
         a.company.company_news = b.company.company_news ∧
         a.content.opening_salutation = b.content.opening_salutation ∧
         a.content.opening_paragraph = b.content.opening_paragraph ∧
         a.content.second_paragraph = b.content.second_paragraph ∧
         a.content.closing_paragraph = b.content.closing_paragraph ∧
         a.content.closing_salutation = b.content.closing_salutation ∧
         a.content.signoff_paragraph = b.content.signoff_paragraph) :
    generate_latex a = generate_latex b := by
  have hab : a = b := by
    obtain ⟨⟨n1, e1, p1, ad1, li1, gh1, ro1⟩, ⟨co1, po1, re1, so1, ne1⟩,
      ⟨s1, o1, t1, cl1, cs1, si1⟩⟩ := a
    obtain ⟨⟨n2, e2, p2, ad2, li2, gh2, ro2⟩, ⟨co2, po2, re2, so2, ne2⟩,
      ⟨s2, o2, t2, cl2, cs2, si2⟩⟩ := b
    simp_all
  rw [hab]

/-- Witness for C7 at a concrete letter. -/
theorem c7_render_deterministic_witness :
    generate_latex exLetter = generate_latex exLetter :=
  c7_render_deterministic exLetter exLetter
    ⟨rfl, rfl, rfl, rfl, rfl, rfl, rfl, rfl, rfl, rfl, rfl, rfl, rfl, rfl,
     rfl, rfl, rfl, rfl⟩

/-- C9: `compile_to_pdf_pdflatex` never propagates an exception: whichever
invocation raises (missing executable, timeout, or any other exception), the
raise is caught and mapped to `none`, and the operation is total, always
returning either an artifact path or `none`. -/
theorem c9_compile_total (pe : Bool) (run2 : RunOutcome) (stem : String)
    (rc : Int) :
    (∀ e : PyExc, compile_to_pdf_pdflatex (.raises e) pe run2 stem = none) ∧
    (∀ e : PyExc, compile_to_pdf_pdflatex (.completed rc) pe (.raises e) stem = none) ∧
    (∀ run1 : RunOutcome, compile_to_pdf_pdflatex run1 pe run2 stem = none ∨
      ∃ p : String, compile_to_pdf_pdflatex run1 pe run2 stem = some p) := by
  refine ⟨?_, ?_, ?_⟩
  · intro e
    cases e <;> rfl
  · intro e
    by_cases h : rc = 0 ∧ pe = true <;>
      cases e <;>
        simp [compile_to_pdf_pdflatex, compileTryBody, runPdflatex, h]
  · intro run1
    cases hc : compile_to_pdf_pdflatex run1 pe run2 stem with
    | none => exact Or.inl rfl
    | some p => exact Or.inr ⟨p, rfl⟩

/-! ## Claims about the success condition and the second compiler pass -/

/-- Counterexample to C1 as stated: with a first invocation that exits 0 and
an existing artifact, a second invocation that raises `TimeoutExpired` is NOT
swallowed — it is caught by the outer handlers and `compile_to_pdf_pdflatex`
returns `none` instead of the artifact path. -/
theorem c1_counterexample :
    compile_to_pdf_pdflatex (.completed 0) true (.raises .timeoutExpired) "letter" = none ∧
    compile_to_pdf_pdflatex (.completed 0) true (.raises .timeoutExpired) "letter"
      ≠ some (pdfPath "letter") := by
  refine ⟨rfl, ?_⟩
  intro hsome
  simp [compile_to_pdf_pdflatex, compileTryBody, runPdflatex] at hsome

/-- C1 amended: when the first invocation exits 0 and the artifact exists, a
second, identical invocation is attempted (same argv, twice); if that second
invocation *completes*, its exit code — zero or not — is ignored and the
artifact path is returned; but if the second invocation *raises* (timeout,
missing executable, or any other exception), the exception is caught by the
outer handlers and `compile_to_pdf_pdflatex` returns `none`, overriding the
already-determined success. -/
theorem c1_second_pass_amended (rc2 : Int) (stem : String) :
    compileInvocations (.completed 0) true stem
      = [pdflatexArgs (texPath stem), pdflatexArgs (texPath stem)] ∧
    compile_to_pdf_pdflatex (.completed 0) true (.completed rc2) stem
      = some (pdfPath stem) ∧
    (∀ e : PyExc,
      compile_to_pdf_pdflatex (.completed 0) true (.raises e) stem = none) := by
  refine ⟨by simp [compileInvocations], ?_, ?_⟩
  · simp [compile_to_pdf_pdflatex, compileTryBody, runPdflatex]
  · intro e
    cases e <;> rfl

/-- Counterexample to C2 as stated: a run where the (first) compiler
invocation exits 0 and the artifact exists, yet `compile_to_pdf_pdflatex`
reports failure (returns no artifact path), because the second, best-effort
invocation raises. -/
theorem c2_counterexample :
    compile_to_pdf_pdflatex (.completed 0) true (.raises .other) "cv" = none ∧
    ¬ ∃ p : String,
        compile_to_pdf_pdflatex (.completed 0) true (.raises .other) "cv" = some p := by
  refine ⟨rfl, ?_⟩
  rintro ⟨p, hp⟩
  simp [compile_to_pdf_pdflatex, compileTryBody, runPdflatex] at hp

/-- C2 amended: `compile_to_pdf_pdflatex` returns an artifact path iff the
first invocation exits with code 0 AND the artifact exists AND the second,
best-effort invocation does not raise; the returned path is always
`<outputDir>/<stem>.pdf`, and in particular an invocation that exits zero
without producing the artifact is a failure (no path returned). -/
theorem c2_success_iff_amended (run1 : RunOutcome) (pe : Bool)
    (run2 : RunOutcome) (stem : String) :
    ((∃ p : String, compile_to_pdf_pdflatex run1 pe run2 stem = some p) ↔
      (run1 = .completed 0 ∧ pe = true ∧ ∃ rc2 : Int, run2 = .completed rc2)) ∧
    (compile_to_pdf_pdflatex run1 pe run2 stem = none ∨
      compile_to_pdf_pdflatex run1 pe run2 stem = some (pdfPath stem)) ∧
    (∀ r2 : RunOutcome, ∀ b : Bool,
      compile_to_pdf_pdflatex (.completed 0) false r2 stem = none ∧
      compile_to_pdf_pdflatex (.raises .fileNotFound) b r2 stem = none) := by
  refine ⟨?_, ?_, ?_⟩
  · rcases run1 with rc | e
    · rcases run2 with rc2 | e2
      · by_cases h : rc = 0 <;> cases pe <;>
          simp [compile_to_pdf_pdflatex, compileTryBody, runPdflatex, h]
      · cases e2 <;> by_cases h : rc = 0 <;> cases pe <;>
          simp [compile_to_pdf_pdflatex, compileTryBody, runPdflatex, h]
    · cases e <;>
        simp [compile_to_pdf_pdflatex, compileTryBody, runPdflatex]
  · rcases run1 with rc | e
    · rcases run2 with rc2 | e2
      · by_cases h : rc = 0 <;> cases pe <;>
          simp [compile_to_pdf_pdflatex, compileTryBody, runPdflatex, h]
      · cases e2 <;> by_cases h : rc = 0 <;> cases pe <;>
          simp [compile_to_pdf_pdflatex, compileTryBody, runPdflatex, h]
    · cases e <;>
        simp [compile_to_pdf_pdflatex, compileTryBody, runPdflatex]
  · intro r2 b
    constructor
    · rcases r2 with rc2 | e2
      · simp [compile_to_pdf_pdflatex, compileTryBody, runPdflatex]
      · cases e2 <;> simp [compile_to_pdf_pdflatex, compileTryBody, runPdflatex]
    · rfl

/-! ## Claims about `create` -/

/-- C3: `create` never fails for compile-related reasons: whenever compilation
is requested and the compile step fails (returns `none`, for whatever reason),
`create` still returns normally with the source path present and the artifact
path absent. -/
theorem c3_create_degrades (l : CoverLetterData) (filename : String)
    (run1 : RunOutcome) (pe : Bool) (run2 : RunOutcome)
    (h : compile_to_pdf_pdflatex run1 pe run2 filename = none) :
    create l filename true run1 pe run2
      = { latex := texPath filename, pdf := none } := by
  simp [create, h]

/-- Witness for C3: a concrete letter with a missing `pdflatex` executable. -/
theorem c3_create_degrades_witness :
    compile_to_pdf_pdflatex (.raises .fileNotFound) false (.completed 0) "letter1" = none ∧
    create exLetter "letter1" true (.raises .fileNotFound) false (.completed 0)
      = { latex := texPath "letter1", pdf := none } :=
  ⟨rfl, c3_create_degrades exLetter "letter1" (.raises .fileNotFound) false
    (.completed 0) rfl⟩

/-- C6: `create` with `export_pdf = false` never invokes the external compiler
(its invocation trace is empty) and returns a result with only the source
path: the `latex` key set and no `pdf` key. -/
theorem c6_no_export_no_compiler (l : CoverLetterData) (filename : String)
    (run1 : RunOutcome) (pe : Bool) (run2 : RunOutcome) :
    create l filename false run1 pe run2
      = { latex := texPath filename, pdf := none } ∧
    createInvocations filename false run1 pe = [] :=
  ⟨rfl, rfl⟩
